import Mathlib

/-!
Verification development for the brachisto-probe simulation core.

The JavaScript engine is shallowly embedded over exact arithmetic: JS numbers
become `ℚ` where the code only adds, multiplies, divides, compares, floors and
clamps, and `ℝ` where it calls `Math.pow` / `Math.exp` / `Math.log`.  Reads of
possibly-missing object fields (`x || 0`, `x || default`) are modelled by plain
fields or explicit defaulting, as noted at each definition.
-/

namespace BrachistoProbe

/-! ## Energy throttle (engine/calculations/energy_calculator.js and unnamed/part_005) -/

/-- Throttle derivation of `EnergyCalculator.calculateEnergyBalance`
(src/frontend/static/js/game/engine/calculations/energy_calculator.js, lines 374-376):
`totalConsumption > 0 ? (production > 0 ? Math.min(1.0, production / totalConsumption) : 0) : 1.0`.
`production` and `totalConsumption` are the sums computed in lines 356-367. -/
def calculateEnergyBalanceThrottle (production totalConsumption : ℚ) : ℚ :=
  if 0 < totalConsumption then
    (if 0 < production then min 1 (production / totalConsumption) else 0)
  else 1

/-- Throttle derivation of the second `EnergyCalculator.calculateEnergyBalance` in the
repository (src/unnamed/part_005, line 183):
`production > 0 ? Math.min(1.0, production / Math.max(1, totalConsumption)) : 0`. -/
def legacyEnergyBalanceThrottle (production totalConsumption : ℚ) : ℚ :=
  if 0 < production then min 1 (production / max 1 totalConsumption) else 0

/-! ## Mining (unnamed/part_004, `MiningSystem.processMining`) -/

/-- Per-zone resource fields touched by mining: `metal_remaining`, `mass_remaining`,
`slag_produced`, `depleted` (src/unnamed/part_004; missing fields read as 0 via `|| 0`). -/
structure MiningZone where
  metal_remaining : ℚ
  mass_remaining : ℚ
  slag_produced : ℚ
  depleted : Bool
deriving DecidableEq

/-- Result of processing one zone: the updated zone plus the global `metal` and `slag` pools. -/
structure MiningStep where
  zone : MiningZone
  metal : ℚ
  slag : ℚ
deriving DecidableEq

/-- Loop body of `MiningSystem.processMining` for one zone (src/unnamed/part_004,
lines 158-223).  The mining rate `probeMiningRate + structureMiningRate` computed by the
production calculator is abstracted into `totalMiningRate`, and
`orbitalMechanics.getZoneMetallicity(zoneId)` into `metallicity`; `isDysonZone` is the
`orbitalMechanics.isDysonZone(zoneId)` guard.  `metal`/`slag` are the global pools. -/
def processMiningZone (isDysonZone : Bool) (zone : MiningZone)
    (totalMiningRate energyThrottle deltaTime metallicity metal slag : ℚ) : MiningStep :=
  if isDysonZone then ⟨zone, metal, slag⟩
  else if zone.depleted then ⟨zone, metal, slag⟩
  else
    let effectiveMiningRate := totalMiningRate * energyThrottle
    let metalExtracted := effectiveMiningRate * deltaTime
    let metalRemaining := zone.metal_remaining
    let actualExtraction := min metalExtracted metalRemaining
    let totalMassExtracted := actualExtraction / metallicity
    let slagProduced := totalMassExtracted - actualExtraction
    let newMetalRemaining := max 0 (metalRemaining - actualExtraction)
    { zone := { metal_remaining := newMetalRemaining
                mass_remaining := max 0 (zone.mass_remaining - totalMassExtracted)
                slag_produced := zone.slag_produced + slagProduced
                depleted := zone.depleted || decide (newMetalRemaining ≤ 0) }
    , metal := metal + actualExtraction
    , slag := slag + slagProduced }

/-! ## Probe replication (unnamed/part_003, `ProbeSystem.processReplication`) -/

/-- Probe mass threshold `this.PROBE_MASS = 100` kg (src/unnamed/part_003, line 13). -/
def PROBE_MASS : ℚ := 100

/-- JavaScript truncation toward zero, as used by the `%` remainder operator. -/
def jsTrunc (q : ℚ) : ℤ := if 0 ≤ q then ⌊q⌋ else -⌊-q⌋

/-- JavaScript `a % b` (fmod): `a - b * trunc(a / b)`. -/
def jsFmod (a b : ℚ) : ℚ := a - b * jsTrunc (a / b)

/-- The state slice `processReplication` reads and writes: the construction-progress
accumulator `construction_progress.probes['probe']` (a single accumulator keyed by probe
type, src/unnamed/part_003 lines 88-90) and the processed zone's probe count
`probes_by_zone[zoneId]['probe']`. -/
structure ReplicationSlice where
  progress : ℚ
  probeCount : ℚ
deriving DecidableEq

/-- `ProbeSystem.processReplication` (src/unnamed/part_003, lines 79-118):
`newProgress = currentProgress + replicationRate * deltaTime`; if `newProgress >= 100`
add `Math.floor(newProgress / 100)` probes and keep `newProgress % 100` as carry,
otherwise store `newProgress`. -/
def processReplication (s : ReplicationSlice) (replicationRate deltaTime : ℚ) :
    ReplicationSlice :=
  let progressAdded := replicationRate * deltaTime
  let newProgress := s.progress + progressAdded
  if PROBE_MASS ≤ newProgress then
    let probesToAdd : ℤ := ⌊newProgress / PROBE_MASS⌋
    let remainingProgress := jsFmod newProgress PROBE_MASS
    { progress := remainingProgress, probeCount := s.probeCount + (probesToAdd : ℚ) }
  else
    { progress := newProgress, probeCount := s.probeCount }

/-! ## Dyson construction (engine_v2/engine.js, `DysonSystem.processDysonConstruction`) -/

/-- `ProductionCalculator.calculateBuildingRate`
(src/frontend/static/js/game/engine_v2/calculations/production_calculator.js, lines 50-61):
`probeCount <= 0 ? 0 : 100 * probeCount * skills.robotic * skills.production`. -/
def calculateBuildingRate (probeCount robotic production : ℚ) : ℚ :=
  if probeCount ≤ 0 then 0 else 100 * probeCount * robotic * production

/-- Dyson-sphere fields touched by construction (src/frontend/static/js/game/engine_v2/engine.js,
lines 593-599). -/
structure DysonSphere where
  mass : ℚ
  target_mass : ℚ
  progress : ℚ
deriving DecidableEq

/-- Result of a `processDysonConstruction` step: global metal pool, Dyson sphere, and
`rates.dyson_construction`. -/
structure DysonStep where
  metal : ℚ
  dyson : DysonSphere
  dysonConstructionRate : ℚ
deriving DecidableEq

/-- `DysonSystem.processDysonConstruction` (src/frontend/static/js/game/engine_v2/engine.js,
lines 554-609).  `totalProbes` is the probe total of the Dyson zone, `dysonAllocation` the
zone's `dyson` allocation; `robotic`, `production`, `dysonConstructionSkill` the skills read.
`METAL_TO_DYSON_RATIO = 2.0`; the JS fallback `target_mass || 5e24` is the explicit
zero test below (the only falsy `ℚ` value being 0). -/
def processDysonConstruction (totalProbes dysonAllocation robotic production
    dysonConstructionSkill energyThrottle deltaTime metal : ℚ) (dyson : DysonSphere) :
    DysonStep :=
  if totalProbes = 0 then ⟨metal, dyson, 0⟩
  else
    let dysonProbes := totalProbes * dysonAllocation
    let buildingRate := calculateBuildingRate dysonProbes robotic production
    let effectiveBuildingRate := buildingRate * dysonConstructionSkill
    let throttledRate := effectiveBuildingRate * energyThrottle
    let metalNeeded := throttledRate * 2 * deltaTime
    let actualMetalConsumed := min metalNeeded metal
    let dysonMassAdded := actualMetalConsumed / 2
    let targetMass := if dyson.target_mass = 0 then 5e24 else dyson.target_mass
    let newMass := dyson.mass + dysonMassAdded
    ⟨metal - actualMetalConsumed
    , { mass := newMass, target_mass := dyson.target_mass
      , progress := min 1 (newMass / targetMass) }
    , throttledRate⟩

/-! ## Transfers, v2 engine (engine_v2/engine.js and engine_v2/systems/transfer_system.js) -/

/-- Transfer lifecycle status strings of the v2 system. -/
inductive TransferStatus where
  | traveling
  | completed
  | paused
deriving DecidableEq

/-- A v2 transfer record (src/frontend/static/js/game/engine_v2/systems/transfer_system.js,
lines 102-112).  The randomly generated `id` is a plain string parameter. -/
structure TransferV2 where
  id : String
  from_zone : String
  to_zone : String
  probe_type : String
  probe_count : ℚ
  departure_time : ℚ
  arrival_time : ℚ
  delta_v_cost : ℚ
  status : TransferStatus
deriving DecidableEq

/-- `probes_by_zone` as a total map zone → probe type → count; absent entries read as 0,
matching the `|| 0` reads in the source. -/
abbrev ProbeMap := String → String → ℚ

/-- `TransferSystem.completeTransfer` (src/frontend/static/js/game/engine_v2/systems/transfer_system.js,
lines 56-83): clamp-subtract `probe_count` at the source entry (only when that entry is
truthy, i.e. nonzero), then add `probe_count` at the destination entry. -/
def completeTransfer (probes : ProbeMap) (t : TransferV2) : ProbeMap :=
  let afterDebit : ProbeMap := fun z ty =>
    if z = t.from_zone ∧ ty = t.probe_type ∧ probes t.from_zone t.probe_type ≠ 0 then
      max 0 (probes t.from_zone t.probe_type - t.probe_count)
    else probes z ty
  fun z ty =>
    if z = t.to_zone ∧ ty = t.probe_type then
      afterDebit t.to_zone t.probe_type + t.probe_count
    else afterDebit z ty

/-- The v2 engine state slice read and written by transfer creation and processing. -/
structure EngineStateV2 where
  time : ℚ
  probes : ProbeMap
  active_transfers : List TransferV2

/-- `TransferSystem.createTransfer` of the v2 system
(src/frontend/static/js/game/engine_v2/systems/transfer_system.js, lines 95-115); the
orbital-mechanics results are the parameters `transferTime` and `deltaV`, the generated id
is `newId`. -/
def mkTransferV2 (time transferTime deltaV : ℚ) (newId fromZone toZone probeType : String)
    (probeCount : ℚ) : TransferV2 :=
  { id := newId, from_zone := fromZone, to_zone := toZone, probe_type := probeType
  , probe_count := probeCount, departure_time := time, arrival_time := time + transferTime
  , delta_v_cost := deltaV, status := TransferStatus.traveling }

/-- `GameEngine.createTransfer` (src/frontend/static/js/game/engine_v2/engine.js,
lines 447-473): reject when `available < probe_count`; otherwise build the transfer and
append it to `active_transfers` (`TransferSystem.addTransfer`).  Returns the success flag
and the resulting state. -/
def engineCreateTransfer (s : EngineStateV2) (transferTime deltaV : ℚ)
    (newId fromZone toZone probeType : String) (probeCount : ℚ) : Bool × EngineStateV2 :=
  let available := s.probes fromZone probeType
  if available < probeCount then (false, s)
  else
    let t := mkTransferV2 s.time transferTime deltaV newId fromZone toZone probeType probeCount
    (true, { s with active_transfers := s.active_transfers ++ [t] })

/-- `TransferSystem.processTransfers` of the v2 system
(src/frontend/static/js/game/engine_v2/systems/transfer_system.js, lines 18-49): paused
transfers are skipped and kept; traveling transfers whose `arrival_time <= time` are
completed (credited via `completeTransfer`) and removed from the active list; all others
are kept. -/
def processTransfersV2 (s : EngineStateV2) : EngineStateV2 :=
  let step : ProbeMap × List TransferV2 → TransferV2 → ProbeMap × List TransferV2 :=
    fun acc t =>
      if t.status = TransferStatus.paused then (acc.1, acc.2 ++ [t])
      else if t.status = TransferStatus.traveling ∧ t.arrival_time ≤ s.time then
        (completeTransfer acc.1 t, acc.2)
      else (acc.1, acc.2 ++ [t])
  let r := s.active_transfers.foldl step (s.probes, [])
  { s with probes := r.1, active_transfers := r.2 }

/-! ## Transfers, v1 engine (engine/systems/transfer_system.js) -/

/-- The v1 state slice read by `TransferSystem.createTransfer`: the clock and
`structures_by_zone` (absent entries read as 0). -/
structure StateV1 where
  time : ℚ
  structures_by_zone : String → String → ℚ

/-- `TransferSystem.hasMassDriver` (src/frontend/static/js/game/engine/systems/transfer_system.js,
lines 695-699): `(structures_by_zone[zoneId]['mass_driver'] || 0) > 0`. -/
def hasMassDriver (st : StateV1) (zoneId : String) : Bool :=
  decide (0 < st.structures_by_zone zoneId "mass_driver")

/-- `TransferSystem.calculateMassDriverSpeedMultiplier` (same file, lines 591-598):
1.0 without mass drivers, otherwise 0.5. -/
def calculateMassDriverSpeedMultiplier (massDriverCount : ℚ) : ℚ :=
  if massDriverCount = 0 then 1 else 1 / 2

/-- A v1 transfer record (same file, lines 816-864).  Mode-dependent fields are `Option`s:
`none` stands for a field the source never assigns on that path. -/
structure TransferV1 where
  id : String
  from_zone : String
  to_zone : String
  resource_type : String
  type : String
  delta_v_cost : ℚ
  transfer_time : ℚ
  status : String
  paused : Bool
  probe_type : Option String
  probe_count : Option ℚ
  metal_kg : Option ℚ
  rate_percentage : Option ℚ
  metal_rate_percentage : Option ℚ
  in_transit : Option (List (ℚ × ℚ))
  last_send_time : Option ℚ
  departure_time : ℚ
  arrival_time : ℚ
deriving DecidableEq

/-- The `{success, transfer, error}` result of v1 `createTransfer`. -/
structure CreateResultV1 where
  success : Bool
  transfer : Option TransferV1
  error : Option String
deriving DecidableEq

/-- The transfer system's private `continuousAccumulators` map (same file, line 13),
modelled as a total map with `get(id) || 0` semantics. -/
abbrev AccumMap := String → ℚ

/-- `TransferSystem.createTransfer` of the v1 system (same file, lines 742-882).
Collaborator results are parameters: `zoneExists` for `orbitalMechanics.getZone`,
`deltaV` / `transferTime0` for `calculateDeltaV` / `calculateTransferTime`,
`availableCapacity` for `getAvailableMetalCapacity`, and `newId` for
`generateTransferId()`.  The JS validity tests `!t || !isFinite(t) || t <= 0` collapse to
`t ≤ 0` over `ℚ`.  The function never writes `st`; it is threaded through the result to
state that explicitly.  On the continuous path the accumulator map is written *before*
the final arrival-time validation, exactly as in the source (lines 863-870). -/
def createTransferV1 (accums : AccumMap) (st : StateV1) (zoneExists : String → Bool)
    (deltaV transferTime0 availableCapacity : ℚ) (newId : String)
    (fromZoneId toZoneId resourceType probeType : String) (resourceCount : ℚ)
    (ttype : String) (ratePercentage0 : ℚ) : CreateResultV1 × AccumMap × StateV1 :=
  if ¬ (zoneExists fromZoneId = true ∧ zoneExists toZoneId = true) then
    (⟨false, none, some "Zone not found"⟩, accums, st)
  else if resourceType = "metal" ∧ hasMassDriver st fromZoneId = false then
    (⟨false, none, some "Mass driver required for metal transfers"⟩, accums, st)
  else if resourceType = "metal" ∧ ttype = "continuous" ∧ 0 < ratePercentage0 ∧
      availableCapacity ≤ 0 then
    (⟨false, none,
      some "No mass driver capacity available. Build more mass drivers or reduce other transfer rates."⟩,
     accums, st)
  else
    let ratePercentage := if resourceType = "metal" ∧ ttype = "continuous" ∧
        0 < ratePercentage0 ∧ availableCapacity < ratePercentage0 then
      availableCapacity else ratePercentage0
    if transferTime0 ≤ 0 then
      (⟨false, none, some "Invalid transfer time"⟩, accums, st)
    else
      let massDriverCount := st.structures_by_zone fromZoneId "mass_driver"
      let transferTime1 := if 0 < massDriverCount then
        transferTime0 * calculateMassDriverSpeedMultiplier massDriverCount else transferTime0
      if 0 < massDriverCount ∧ transferTime1 ≤ 0 then
        (⟨false, none, some "Invalid transfer time after multiplier"⟩, accums, st)
      else
        let isDysonDestination := toZoneId = "dyson_sphere" ∨ toZoneId = "dyson"
        let transferTime2 := if isDysonDestination ∧ resourceType = "metal" then
          transferTime1 * 3 else transferTime1
        let currentTime := st.time
        if ttype = "one-time" then
          if transferTime2 ≤ 0 then
            (⟨false, none, some "Invalid transfer time"⟩, accums, st)
          else if currentTime + transferTime2 = 0 then
            (⟨false, none, some "Failed to create transfer: invalid arrival time"⟩, accums, st)
          else
            (⟨true, some
              { id := newId, from_zone := fromZoneId, to_zone := toZoneId
              , resource_type := resourceType, type := ttype, delta_v_cost := deltaV
              , transfer_time := transferTime2, status := "traveling", paused := false
              , probe_type := if resourceType = "probe" then some probeType else none
              , probe_count := if resourceType = "probe" then some resourceCount else none
              , metal_kg := if resourceType = "metal" then some resourceCount else none
              , rate_percentage := none, metal_rate_percentage := none
              , in_transit := none, last_send_time := none
              , departure_time := currentTime
              , arrival_time := currentTime + transferTime2 }, none⟩, accums, st)
        else
          let accums' : AccumMap := fun i => if i = newId then 0 else accums i
          if currentTime + transferTime2 = 0 then
            (⟨false, none, some "Failed to create transfer: invalid arrival time"⟩, accums', st)
          else
            (⟨true, some
              { id := newId, from_zone := fromZoneId, to_zone := toZoneId
              , resource_type := resourceType, type := ttype, delta_v_cost := deltaV
              , transfer_time := transferTime2, status := "traveling", paused := false
              , probe_type := if resourceType = "probe" then some probeType else none
              , probe_count := none, metal_kg := none
              , rate_percentage := if resourceType = "metal" then none else some ratePercentage
              , metal_rate_percentage := if resourceType = "metal" then some ratePercentage else none
              , in_transit := some [], last_send_time := some currentTime
              , departure_time := currentTime
              , arrival_time := currentTime + transferTime2 }, none⟩, accums', st)

/-! ## Continuous-transfer accumulators and snapshot round-tripping (v1 transfer system) -/

/-- The world-state slice of a single continuous probe transfer: source-zone probe count,
destination-zone probe count, the transfer's `in_transit` batch queue (count, arrival time),
and the clock.  All of these live in the serialized state. -/
structure ContinuousSlice where
  sourceProbes : ℚ
  destProbes : ℚ
  inTransit : List (ℚ × ℚ)
  time : ℚ
deriving DecidableEq

/-- The transfer system's in-memory, non-serialized per-transfer accumulator
(`this.continuousAccumulators`, src/frontend/static/js/game/engine/systems/transfer_system.js,
lines 13, 231, 278). -/
structure TransferSystemMem where
  accumulator : ℚ
deriving DecidableEq

/-- Batch-dispatch loop of `TransferSystem.processContinuousTransfer` (probe branch, same
file lines 243-275): while at least one probe is accumulated and available, dispatch
`Math.floor(Math.min(accumulated, available))` probes.  `fuel` bounds the iterations;
every pass removes at least one accumulated probe, so `⌊accumulated⌋.toNat + 1` steps are
enough for the loop to reach its exit condition, and callers pass exactly that. -/
def sendLoop : ℕ → ℚ → ℚ → List ℚ → ℚ × ℚ × List ℚ
  | 0, accumulated, available, sent => (accumulated, available, sent)
  | fuel + 1, accumulated, available, sent =>
    if 1 ≤ accumulated ∧ 1 ≤ available then
      let batchCount : ℤ := ⌊min accumulated available⌋
      if 1 ≤ (batchCount : ℚ) then
        sendLoop fuel (accumulated - (batchCount : ℚ)) (max 0 (available - (batchCount : ℚ)))
          (sent ++ [(batchCount : ℚ)])
      else (accumulated, available, sent)
    else (accumulated, available, sent)

/-- Probe branch of `TransferSystem.processContinuousTransfer` (same file, lines 210-291)
for one transfer: grow the accumulator by `sendRate * deltaTime`
(`sendRate = zoneProductionRate * ratePercentage / 100`, both parametrized into
`sendRate`), dispatch whole batches, enqueue them with arrival time
`currentTime + baseTransferTime`.  The early returns for non-positive rate or production
are the `sendRate ≤ 0` guard. -/
def processContinuousProbeTransfer (sys : TransferSystemMem) (st : ContinuousSlice)
    (sendRate transferTime deltaTime : ℚ) : TransferSystemMem × ContinuousSlice :=
  if sendRate ≤ 0 then (sys, st)
  else
    let accumulated := sys.accumulator + sendRate * deltaTime
    let r := sendLoop (⌊accumulated⌋.toNat + 1) accumulated st.sourceProbes []
    let arrivalTime := st.time + transferTime
    (⟨r.1⟩,
     { st with sourceProbes := r.2.1
             , inTransit := st.inTransit ++ r.2.2.map (fun c => (c, arrivalTime)) })

/-- `TransferSystem.processContinuousArrivals` (same file, lines 379-450): batches with
`arrival_time <= currentTime` leave the queue and are credited to the destination. -/
def processContinuousArrivals (st : ContinuousSlice) : ContinuousSlice :=
  let arrived := st.inTransit.filter (fun b => decide (b.2 ≤ st.time))
  let remaining := st.inTransit.filter (fun b => ¬ decide (b.2 ≤ st.time))
  { st with inTransit := remaining
          , destProbes := st.destProbes + (arrived.map Prod.fst).sum }

/-- Modelled from the spec: one engine tick for a single unpaused continuous probe
transfer.  The v1 `GameEngine` that sequences subsystems is not under src/; §2 of the
spec fixes the per-tick flow (advance the clock by Δt, run the transfer system's dispatch
pass then its arrival pass, as `processTransfers` does in lines 134-140 of the transfer
system). -/
def tickContinuous (sendRate transferTime deltaTime : ℚ)
    (p : TransferSystemMem × ContinuousSlice) : TransferSystemMem × ContinuousSlice :=
  let st := { p.2 with time := p.2.time + deltaTime }
  let r := processContinuousProbeTransfer p.1 st sendRate transferTime deltaTime
  (r.1, processContinuousArrivals r.2)

/-- Modelled from the spec: `serialize` emits the world-state snapshot (§3: one
serializable aggregate; §6: the snapshot is the persisted object).  The transfer system's
`continuousAccumulators` map is an instance field, not a state field, so it is not part
of the snapshot. -/
def serializeSlice (p : TransferSystemMem × ContinuousSlice) : ContinuousSlice := p.2

/-- Modelled from the spec: `deserialize` rebuilds an engine from a snapshot.  The rebuilt
transfer system starts with an empty `continuousAccumulators` map, and
`continuousAccumulators.get(id) || 0` (line 231) then reads 0 for every transfer. -/
def deserializeSlice (st : ContinuousSlice) : TransferSystemMem × ContinuousSlice :=
  (⟨0⟩, st)

/-- Concrete initial configuration for the round-trip divergence: 5 probes at the source,
an empty in-flight queue, clock 0, accumulator 0. -/
def roundtripInit : TransferSystemMem × ContinuousSlice :=
  (⟨0⟩, ⟨5, 0, [], 0⟩)

/-! ## Composite skill factors and salvage efficiency (ℝ) -/

section RealFactors

open Classical in
/-- The filter `skillValues.filter(v => v > 0)` of `calculateTechTreeUpgradeFactor`
(src/frontend/static/js/game/engine/systems/transfer_system.js, line 1249). -/
noncomputable def filterPositive : List ℝ → List ℝ
  | [] => []
  | v :: rest => if 0 < v then v :: filterPositive rest else filterPositive rest

open Classical in
/-- `CompositeSkillsCalculator.calculateTechTreeUpgradeFactor`
(src/frontend/static/js/game/engine/systems/transfer_system.js, lines 1245-1263; an
identical copy lives in engine/calculations/energy_calculator.js, lines 76-94):
empty input ⇒ 1.0; filter non-positive values, all filtered ⇒ 1.0; else
`G = product^(1/n)` and `F = exp(alpha * log(G))`. -/
noncomputable def calculateTechTreeUpgradeFactor (skillValues : List ℝ) (alpha : ℝ) : ℝ :=
  if skillValues = [] then 1
  else
    let validValues := filterPositive skillValues
    if validValues = [] then 1
    else
      let product := validValues.foldl (· * ·) 1
      let geometricMean := product ^ ((1 : ℝ) / (validValues.length : ℝ))
      Real.exp (alpha * Real.log geometricMean)

/-- `calculateUpgradeFactorFromCoefficients` (same file, lines 1272-1285): 1.0 when the
category has no coefficient table; otherwise the tech-tree factor of the
coefficient-weighted skill values (the `buildSkillValues` output is the `some` payload). -/
noncomputable def calculateUpgradeFactorFromCoefficients (coeffValues : Option (List ℝ))
    (alpha : ℝ) : ℝ :=
  match coeffValues with
  | none => 1
  | some skillValues => calculateTechTreeUpgradeFactor skillValues alpha

/-- `CompositeSkillsCalculator.calculateSalvageEfficiency` (same file, lines 1358-1366):
`Math.min(1.0, 0.75 * upgradeFactor)`. -/
noncomputable def calculateSalvageEfficiency (coeffValues : Option (List ℝ)) (alpha : ℝ) : ℝ :=
  min 1 (0.75 * calculateUpgradeFactorFromCoefficients coeffValues alpha)

/-- The spec's formula, stated independently of the code: the geometric mean of the
positive values, raised to α (`factor = (Π coeff_i·skill_i)^(1/n·α)`, spec §4.3). -/
noncomputable def specGeometricMeanPow (values : List ℝ) (alpha : ℝ) : ℝ :=
  ((filterPositive values).prod ^ ((1 : ℝ) / ((filterPositive values).length : ℝ))) ^ alpha

end RealFactors

/-! ## Theorems -/

/-- C1, counterexample: the claim quantifies over both `calculateEnergyBalance`
implementations; the copy in src/unnamed/part_005 returns throttle 0 — not 1.0 — on a
state whose energy production and consumption are both 0 (e.g. the empty world state). -/
theorem c1_energy_throttle_counterexample :
    legacyEnergyBalanceThrottle 0 0 = 0 ∧ legacyEnergyBalanceThrottle 0 0 ≠ 1 := by
  constructor <;> norm_num [legacyEnergyBalanceThrottle]

/-- C1, amended: for the main implementation
(engine/calculations/energy_calculator.js `calculateEnergyBalance`), with nonnegative
production and consumption totals, the throttle is in [0,1]; it is exactly 1.0 when
consumption is 0, exactly 0.0 when production is 0 and consumption positive, and
min(1, production/consumption) whenever consumption is positive. -/
theorem c1_energy_throttle_amended (production totalConsumption : ℚ)
    (hp : 0 ≤ production) (hc : 0 ≤ totalConsumption) :
    (0 ≤ calculateEnergyBalanceThrottle production totalConsumption ∧
      calculateEnergyBalanceThrottle production totalConsumption ≤ 1) ∧
    (totalConsumption = 0 → calculateEnergyBalanceThrottle production totalConsumption = 1) ∧
    (production = 0 → 0 < totalConsumption →
      calculateEnergyBalanceThrottle production totalConsumption = 0) ∧
    (0 < totalConsumption →
      calculateEnergyBalanceThrottle production totalConsumption =
        min 1 (production / totalConsumption)) := by
  refine ⟨?_, ?_, ?_, ?_⟩
  · unfold calculateEnergyBalanceThrottle
    split_ifs with h1 h2
    · exact ⟨le_min (by norm_num) (div_nonneg hp h1.le), min_le_left _ _⟩
    · exact ⟨le_rfl, by norm_num⟩
    · exact ⟨by norm_num, le_rfl⟩
  · intro h0
    simp [calculateEnergyBalanceThrottle, h0]
  · intro hp0 hcpos
    simp [calculateEnergyBalanceThrottle, hp0, hcpos]
  · intro hcpos
    unfold calculateEnergyBalanceThrottle
    rw [if_pos hcpos]
    rcases lt_or_eq_of_le hp with hppos | hpzero
    · rw [if_pos hppos]
    · rw [if_neg (by rw [← hpzero]; exact lt_irrefl 0), ← hpzero]
      simp [zero_div]

/-- C1, witness: the amended throttle theorem applied at production 3, consumption 2. -/
theorem c1_energy_throttle_witness :
    (0 ≤ calculateEnergyBalanceThrottle 3 2 ∧ calculateEnergyBalanceThrottle 3 2 ≤ 1) ∧
    ((2 : ℚ) = 0 → calculateEnergyBalanceThrottle 3 2 = 1) ∧
    ((3 : ℚ) = 0 → (0 : ℚ) < 2 → calculateEnergyBalanceThrottle 3 2 = 0) ∧
    ((0 : ℚ) < 2 → calculateEnergyBalanceThrottle 3 2 = min 1 (3 / 2)) :=
  c1_energy_throttle_amended 3 2 (by norm_num) (by norm_num)

/-- C4: for a non-Dyson, non-depleted zone, the metal added to the global pool by one
mining step is exactly `min(ratedRate·throttle·Δt, remainingMetal)`, and the conservation
identity `metalExtracted/zoneMetallicity = metalExtracted + slagProduced` holds for the
recorded slag, which is also exactly the amount added to the global slag pool. -/
theorem c4_mining_conservation (zone : MiningZone)
    (totalMiningRate energyThrottle deltaTime metallicity metal slag : ℚ)
    (hdep : zone.depleted = false) (hmet : 0 < metallicity) :
    (processMiningZone false zone totalMiningRate energyThrottle deltaTime metallicity
        metal slag).metal - metal =
      min (totalMiningRate * energyThrottle * deltaTime) zone.metal_remaining ∧
    ((processMiningZone false zone totalMiningRate energyThrottle deltaTime metallicity
        metal slag).metal - metal) / metallicity =
      ((processMiningZone false zone totalMiningRate energyThrottle deltaTime metallicity
        metal slag).metal - metal) +
      ((processMiningZone false zone totalMiningRate energyThrottle deltaTime metallicity
        metal slag).zone.slag_produced - zone.slag_produced) ∧
    (processMiningZone false zone totalMiningRate energyThrottle deltaTime metallicity
        metal slag).slag - slag =
      (processMiningZone false zone totalMiningRate energyThrottle deltaTime metallicity
        metal slag).zone.slag_produced - zone.slag_produced := by
  have hmet' : metallicity ≠ 0 := ne_of_gt hmet
  simp only [processMiningZone, hdep, Bool.false_eq_true, if_false]
  refine ⟨by ring, by ring, by ring⟩

/-- C4, witness: the mining conservation theorem at a zone holding 1000 kg metal with
metallicity 1/4, rate 100 kg/day, throttle 1/2, Δt = 1 day. -/
theorem c4_mining_conservation_witness :
    (⟨1000, 5000, 0, false⟩ : MiningZone).depleted = false ∧ (0 : ℚ) < 1 / 4 ∧
    ((processMiningZone false ⟨1000, 5000, 0, false⟩ 100 (1 / 2) 1 (1 / 4) 0 0).metal - 0 =
      min (100 * (1 / 2) * 1) (⟨1000, 5000, 0, false⟩ : MiningZone).metal_remaining) :=
  ⟨rfl, by norm_num,
    (c4_mining_conservation ⟨1000, 5000, 0, false⟩ 100 (1 / 2) 1 (1 / 4) 0 0 rfl
      (by norm_num)).1⟩

/-- Above the threshold, one replication step stores the carry
`newProgress - 100·⌊newProgress/100⌋` and adds `⌊newProgress/100⌋` probes. -/
theorem processReplication_of_ge (s : ReplicationSlice) (replicationRate deltaTime : ℚ)
    (hge : PROBE_MASS ≤ s.progress + replicationRate * deltaTime) :
    processReplication s replicationRate deltaTime =
      ⟨(s.progress + replicationRate * deltaTime) -
          PROBE_MASS * (⌊(s.progress + replicationRate * deltaTime) / PROBE_MASS⌋ : ℚ),
        s.probeCount +
          ((⌊(s.progress + replicationRate * deltaTime) / PROBE_MASS⌋ : ℤ) : ℚ)⟩ := by
  have hxpos : (0 : ℚ) ≤ (s.progress + replicationRate * deltaTime) / PROBE_MASS := by
    have h100 : (0 : ℚ) < PROBE_MASS := by norm_num [PROBE_MASS]
    exact div_nonneg (le_trans h100.le hge) h100.le
  unfold processReplication jsFmod jsTrunc
  rw [if_pos hge, if_pos hxpos]

/-- Below the threshold, one replication step only stores the grown progress. -/
theorem processReplication_of_lt (s : ReplicationSlice) (replicationRate deltaTime : ℚ)
    (hlt : s.progress + replicationRate * deltaTime < PROBE_MASS) :
    processReplication s replicationRate deltaTime =
      ⟨s.progress + replicationRate * deltaTime, s.probeCount⟩ := by
  unfold processReplication
  rw [if_neg (not_le.mpr hlt)]

/-- C6: one replication step adds `replicationRate·Δt` kg of progress; when the new total
reaches `PROBE_MASS = 100` the probe count grows by exactly `⌊progress/100⌋ ≥ 1` and the
remainder carries forward; below the threshold nothing changes except the stored progress;
progress is conserved (`old + added = new + 100·probesAdded`) and a non-negative-integer
probe count stays a non-negative integer. -/
theorem c6_replication_progress (s : ReplicationSlice) (replicationRate deltaTime : ℚ)
    (n : ℕ) (hn : s.probeCount = (n : ℚ)) :
    (s.progress + replicationRate * deltaTime =
      (processReplication s replicationRate deltaTime).progress +
        PROBE_MASS * ((processReplication s replicationRate deltaTime).probeCount -
          s.probeCount)) ∧
    (PROBE_MASS ≤ s.progress + replicationRate * deltaTime →
      (processReplication s replicationRate deltaTime).probeCount =
          s.probeCount +
            ((⌊(s.progress + replicationRate * deltaTime) / PROBE_MASS⌋ : ℤ) : ℚ) ∧
        1 ≤ ⌊(s.progress + replicationRate * deltaTime) / PROBE_MASS⌋) ∧
    (s.progress + replicationRate * deltaTime < PROBE_MASS →
      (processReplication s replicationRate deltaTime).probeCount = s.probeCount ∧
      (processReplication s replicationRate deltaTime).progress =
        s.progress + replicationRate * deltaTime) ∧
    (∃ m : ℕ, (processReplication s replicationRate deltaTime).probeCount = (m : ℚ)) := by
  rcases le_or_lt PROBE_MASS (s.progress + replicationRate * deltaTime) with hge | hlt
  · have hfloor1 : 1 ≤ ⌊(s.progress + replicationRate * deltaTime) / PROBE_MASS⌋ := by
      rw [Int.le_floor]
      rw [le_div_iff₀ (by norm_num [PROBE_MASS] : (0 : ℚ) < PROBE_MASS)]
      push_cast
      norm_num [PROBE_MASS] at hge ⊢
      linarith
    rw [processReplication_of_ge s replicationRate deltaTime hge]
    dsimp only
    refine ⟨by ring, fun _ => ⟨rfl, hfloor1⟩, fun hlt => absurd hge (not_le.mpr hlt), ?_⟩
    refine ⟨n + (⌊(s.progress + replicationRate * deltaTime) / PROBE_MASS⌋).toNat, ?_⟩
    have h0 : (0 : ℤ) ≤ ⌊(s.progress + replicationRate * deltaTime) / PROBE_MASS⌋ :=
      le_trans one_pos.le hfloor1
    have h1 : (((⌊(s.progress + replicationRate * deltaTime) / PROBE_MASS⌋).toNat : ℕ) : ℚ) =
        ((⌊(s.progress + replicationRate * deltaTime) / PROBE_MASS⌋ : ℤ) : ℚ) := by
      conv_rhs => rw [← Int.toNat_of_nonneg h0]
      norm_cast
    rw [hn, Nat.cast_add, h1]
  · rw [processReplication_of_lt s replicationRate deltaTime hlt]
    dsimp only
    exact ⟨by ring, fun h => absurd h (not_le.mpr hlt), fun _ => ⟨rfl, rfl⟩, ⟨n, hn⟩⟩

/-- C6, witness: the replication theorem at progress 50 kg, 3 probes, rate 175 kg/day,
Δt = 1 day (the step yields 2 new probes and carry 25 kg). -/
theorem c6_replication_progress_witness :
    ((50 : ℚ) + 175 * 1 =
      (processReplication ⟨50, 3⟩ 175 1).progress +
        PROBE_MASS * ((processReplication ⟨50, 3⟩ 175 1).probeCount - 3)) ∧
    (PROBE_MASS ≤ (50 : ℚ) + 175 * 1 →
      (processReplication ⟨50, 3⟩ 175 1).probeCount =
          3 + ((⌊((50 : ℚ) + 175 * 1) / PROBE_MASS⌋ : ℤ) : ℚ) ∧
        1 ≤ ⌊((50 : ℚ) + 175 * 1) / PROBE_MASS⌋) ∧
    ((50 : ℚ) + 175 * 1 < PROBE_MASS →
      (processReplication ⟨50, 3⟩ 175 1).probeCount = 3 ∧
      (processReplication ⟨50, 3⟩ 175 1).progress = (50 : ℚ) + 175 * 1) ∧
    (∃ m : ℕ, (processReplication ⟨50, 3⟩ 175 1).probeCount = (m : ℚ)) :=
  c6_replication_progress ⟨50, 3⟩ 175 1 3 (by norm_num)

/-- Nonnegativity of `calculateBuildingRate` under nonnegative skills. -/
theorem calculateBuildingRate_nonneg (probeCount robotic production : ℚ)
    (hr : 0 ≤ robotic) (hp : 0 ≤ production) :
    0 ≤ calculateBuildingRate probeCount robotic production := by
  unfold calculateBuildingRate
  split_ifs with h
  · exact le_rfl
  · have hpc : 0 ≤ probeCount := le_of_lt (not_le.mp h)
    have h1 : 0 ≤ 100 * probeCount := by linarith
    exact mul_nonneg (mul_nonneg h1 hr) hp

/-- C9: one Dyson-construction step never decreases Dyson mass, consumes exactly twice the
added mass in metal and never more metal than is available, leaves `target_mass` alone, and
stores progress `min(1, mass/targetMass)` — so the progress invariant
`progress = min(1, mass/targetMass)` is preserved, and progress stays clamped even when the
raw mass exceeds the target. -/
theorem c9_dyson_invariants (totalProbes dysonAllocation robotic production
    dysonConstructionSkill energyThrottle deltaTime metal : ℚ) (dyson : DysonSphere)
    (r : DysonStep)
    (hr : r = processDysonConstruction totalProbes dysonAllocation robotic production
      dysonConstructionSkill energyThrottle deltaTime metal dyson)
    (hrob : 0 ≤ robotic) (hprod : 0 ≤ production) (hskill : 0 ≤ dysonConstructionSkill)
    (hthr : 0 ≤ energyThrottle) (hdt : 0 ≤ deltaTime) (hmetal : 0 ≤ metal) :
    dyson.mass ≤ r.dyson.mass ∧
    metal - r.metal = 2 * (r.dyson.mass - dyson.mass) ∧
    metal - r.metal ≤ metal ∧
    r.dyson.target_mass = dyson.target_mass ∧
    (totalProbes ≠ 0 → r.dyson.progress =
      min 1 (r.dyson.mass / (if dyson.target_mass = 0 then 5e24 else dyson.target_mass))) ∧
    (dyson.progress =
        min 1 (dyson.mass / (if dyson.target_mass = 0 then 5e24 else dyson.target_mass)) →
      r.dyson.progress =
        min 1 (r.dyson.mass / (if dyson.target_mass = 0 then 5e24 else dyson.target_mass))) := by
  subst hr
  by_cases h0 : totalProbes = 0
  · have hr2 : processDysonConstruction totalProbes dysonAllocation robotic production
        dysonConstructionSkill energyThrottle deltaTime metal dyson = ⟨metal, dyson, 0⟩ := by
      unfold processDysonConstruction
      rw [if_pos h0]
    rw [hr2]
    exact ⟨le_rfl, by ring, by linarith, rfl, fun h => absurd h0 h, fun h => h⟩
  · have hbr : 0 ≤ calculateBuildingRate (totalProbes * dysonAllocation) robotic production :=
      calculateBuildingRate_nonneg _ _ _ hrob hprod
    have hneed : 0 ≤ calculateBuildingRate (totalProbes * dysonAllocation) robotic production *
        dysonConstructionSkill * energyThrottle * 2 * deltaTime := by positivity
    have hcons : 0 ≤ min (calculateBuildingRate (totalProbes * dysonAllocation) robotic
        production * dysonConstructionSkill * energyThrottle * 2 * deltaTime) metal :=
      le_min hneed hmetal
    have hle : min (calculateBuildingRate (totalProbes * dysonAllocation) robotic
        production * dysonConstructionSkill * energyThrottle * 2 * deltaTime) metal ≤ metal :=
      min_le_right _ _
    have h2 : (0 : ℚ) ≤ min (calculateBuildingRate (totalProbes * dysonAllocation) robotic
        production * dysonConstructionSkill * energyThrottle * 2 * deltaTime) metal / 2 :=
      div_nonneg hcons (by norm_num)
    have hr3 : processDysonConstruction totalProbes dysonAllocation robotic production
        dysonConstructionSkill energyThrottle deltaTime metal dyson =
      ⟨metal - min (calculateBuildingRate (totalProbes * dysonAllocation) robotic production *
          dysonConstructionSkill * energyThrottle * 2 * deltaTime) metal,
        ⟨dyson.mass + min (calculateBuildingRate (totalProbes * dysonAllocation) robotic
            production * dysonConstructionSkill * energyThrottle * 2 * deltaTime) metal / 2,
          dyson.target_mass,
          min 1 ((dyson.mass + min (calculateBuildingRate (totalProbes * dysonAllocation)
              robotic production * dysonConstructionSkill * energyThrottle * 2 * deltaTime)
              metal / 2) /
            (if dyson.target_mass = 0 then 5e24 else dyson.target_mass))⟩,
        calculateBuildingRate (totalProbes * dysonAllocation) robotic production *
          dysonConstructionSkill * energyThrottle⟩ := by
      unfold processDysonConstruction
      rw [if_neg h0]
    rw [hr3]
    exact ⟨by dsimp only; linarith, by dsimp only; ring, by dsimp only; linarith,
      rfl, fun _ => rfl, fun _ => rfl⟩

/-- C9, witness: the Dyson theorem at 10 probes, allocation 1/2, unit skills and throttle,
Δt = 1 day, 100 kg metal, an empty sphere with target 1000 kg. -/
theorem c9_dyson_invariants_witness :
    (⟨0, 1000, 0⟩ : DysonSphere).mass ≤
      (processDysonConstruction 10 (1 / 2) 1 1 1 1 1 100 ⟨0, 1000, 0⟩).dyson.mass ∧
    (100 : ℚ) - (processDysonConstruction 10 (1 / 2) 1 1 1 1 1 100 ⟨0, 1000, 0⟩).metal =
      2 * ((processDysonConstruction 10 (1 / 2) 1 1 1 1 1 100 ⟨0, 1000, 0⟩).dyson.mass -
        (⟨0, 1000, 0⟩ : DysonSphere).mass) ∧
    (100 : ℚ) - (processDysonConstruction 10 (1 / 2) 1 1 1 1 1 100 ⟨0, 1000, 0⟩).metal ≤ 100 ∧
    (processDysonConstruction 10 (1 / 2) 1 1 1 1 1 100 ⟨0, 1000, 0⟩).dyson.target_mass =
      (⟨0, 1000, 0⟩ : DysonSphere).target_mass ∧
    ((10 : ℚ) ≠ 0 →
      (processDysonConstruction 10 (1 / 2) 1 1 1 1 1 100 ⟨0, 1000, 0⟩).dyson.progress =
        min 1 ((processDysonConstruction 10 (1 / 2) 1 1 1 1 1 100 ⟨0, 1000, 0⟩).dyson.mass /
          (if (⟨0, 1000, 0⟩ : DysonSphere).target_mass = 0 then 5e24
            else (⟨0, 1000, 0⟩ : DysonSphere).target_mass))) ∧
    ((⟨0, 1000, 0⟩ : DysonSphere).progress =
        min 1 ((⟨0, 1000, 0⟩ : DysonSphere).mass /
          (if (⟨0, 1000, 0⟩ : DysonSphere).target_mass = 0 then 5e24
            else (⟨0, 1000, 0⟩ : DysonSphere).target_mass)) →
      (processDysonConstruction 10 (1 / 2) 1 1 1 1 1 100 ⟨0, 1000, 0⟩).dyson.progress =
        min 1 ((processDysonConstruction 10 (1 / 2) 1 1 1 1 1 100 ⟨0, 1000, 0⟩).dyson.mass /
          (if (⟨0, 1000, 0⟩ : DysonSphere).target_mass = 0 then 5e24
            else (⟨0, 1000, 0⟩ : DysonSphere).target_mass))) :=
  c9_dyson_invariants 10 (1 / 2) 1 1 1 1 1 100 ⟨0, 1000, 0⟩ _ rfl (by norm_num) (by norm_num)
    (by norm_num) (by norm_num) (by norm_num) (by norm_num)

/-- Completing a v2 transfer credits the destination entry with the full `probe_count`. -/
theorem completeTransfer_dest (probes : ProbeMap) (t : TransferV2)
    (hne : t.from_zone ≠ t.to_zone) :
    completeTransfer probes t t.to_zone t.probe_type =
      probes t.to_zone t.probe_type + t.probe_count := by
  unfold completeTransfer
  dsimp only
  rw [if_pos ⟨rfl, rfl⟩, if_neg]
  intro hcon
  exact hne hcon.1.symm

/-- Completing a v2 transfer leaves the source entry at
`max 0 (old - probe_count)` (for a nonnegative count). -/
theorem completeTransfer_source (probes : ProbeMap) (t : TransferV2)
    (hc : 0 ≤ t.probe_count) (hne : t.from_zone ≠ t.to_zone) :
    completeTransfer probes t t.from_zone t.probe_type =
      max 0 (probes t.from_zone t.probe_type - t.probe_count) := by
  unfold completeTransfer
  dsimp only
  rw [if_neg (fun hcon => hne hcon.1)]
  by_cases hz : probes t.from_zone t.probe_type = 0
  · rw [if_neg (fun hcon => hcon.2.2 hz), hz]
    rw [max_eq_left (by linarith)]
  · rw [if_pos ⟨rfl, rfl, hz⟩]

/-- Completing a v2 transfer keeps every entry nonnegative when the count is nonnegative. -/
theorem completeTransfer_nonneg (probes : ProbeMap) (t : TransferV2)
    (hc : 0 ≤ t.probe_count) (h : ∀ z ty, 0 ≤ probes z ty) :
    ∀ z ty, 0 ≤ completeTransfer probes t z ty := by
  intro z ty
  unfold completeTransfer
  dsimp only
  split_ifs with h1 h2 h3 h4
  · have := h t.from_zone t.probe_type
    have hmax : (0 : ℚ) ≤ max 0 (probes t.from_zone t.probe_type - t.probe_count) :=
      le_max_left _ _
    linarith
  · have := h t.to_zone t.probe_type
    linarith
  · exact le_max_left _ _
  · exact h z ty

/-- C10: completing a v2 one-time transfer always credits the full `probe_count` to the
destination, reduces the source by at most `probe_count` clamped at zero, keeps every
entry nonnegative — and there is a concrete instance where the total probe count summed
over the zones strictly increases (source holding fewer than `probe_count` probes). -/
theorem c10_complete_transfer_invariants (probes : ProbeMap) (t : TransferV2)
    (hc : 0 ≤ t.probe_count) (hne : t.from_zone ≠ t.to_zone)
    (hnn : ∀ z ty, 0 ≤ probes z ty) :
    completeTransfer probes t t.to_zone t.probe_type =
      probes t.to_zone t.probe_type + t.probe_count ∧
    completeTransfer probes t t.from_zone t.probe_type =
      max 0 (probes t.from_zone t.probe_type - t.probe_count) ∧
    (∀ z ty, 0 ≤ completeTransfer probes t z ty) ∧
    (∃ (p : ProbeMap) (u : TransferV2) (zones : List String) (ty : String),
      0 ≤ u.probe_count ∧ (∀ z ty2, 0 ≤ p z ty2) ∧
      ((zones.map fun z => p z ty).sum < (zones.map fun z => completeTransfer p u z ty).sum)) := by
  refine ⟨completeTransfer_dest probes t hne, completeTransfer_source probes t hc hne,
    completeTransfer_nonneg probes t hc hnn, ?_⟩
  refine ⟨fun z ty => if z = "src" ∧ ty = "probe" then 1 else 0,
    ⟨"t0", "src", "dst", "probe", 3, 0, 0, 0, TransferStatus.traveling⟩,
    ["src", "dst"], "probe", by norm_num, ?_,
    by norm_num [completeTransfer, show ("dst" : String) ≠ "src" from by decide,
      show ("src" : String) ≠ "dst" from by decide]⟩
  intro z ty2
  dsimp only
  split_ifs <;> norm_num

/-- C10, witness: the completion theorem at a map holding 2 probes at the source and a
transfer of 2 probes from "a" to "b". -/
theorem c10_complete_transfer_invariants_witness :
    completeTransfer (fun z ty => if z = "a" ∧ ty = "probe" then 2 else 0)
        ⟨"t1", "a", "b", "probe", 2, 0, 0, 0, TransferStatus.traveling⟩ "b" "probe" =
      (if ("b" : String) = "a" ∧ ("probe" : String) = "probe" then (2 : ℚ) else 0) + 2 ∧
    completeTransfer (fun z ty => if z = "a" ∧ ty = "probe" then 2 else 0)
        ⟨"t1", "a", "b", "probe", 2, 0, 0, 0, TransferStatus.traveling⟩ "a" "probe" =
      max 0 ((if ("a" : String) = "a" ∧ ("probe" : String) = "probe" then (2 : ℚ) else 0) - 2) ∧
    (∀ z ty, 0 ≤ completeTransfer (fun z ty => if z = "a" ∧ ty = "probe" then 2 else 0)
        ⟨"t1", "a", "b", "probe", 2, 0, 0, 0, TransferStatus.traveling⟩ z ty) ∧
    (∃ (p : ProbeMap) (u : TransferV2) (zones : List String) (ty : String),
      0 ≤ u.probe_count ∧ (∀ z ty2, 0 ≤ p z ty2) ∧
      ((zones.map fun z => p z ty).sum < (zones.map fun z => completeTransfer p u z ty).sum)) :=
  c10_complete_transfer_invariants (fun z ty => if z = "a" ∧ ty = "probe" then 2 else 0)
    ⟨"t1", "a", "b", "probe", 2, 0, 0, 0, TransferStatus.traveling⟩ (by norm_num)
    (by decide) (fun z ty => by dsimp only; split_ifs <;> norm_num)

/-- C3, counterexample: in the v2 engine the claim's "debit at creation" fails — creating
a one-time transfer of 3 probes from a zone holding 5 succeeds yet leaves the source zone
still holding 5 probes (not 2): nothing is debited at creation time. -/
theorem c3_one_time_debit_counterexample :
    (engineCreateTransfer ⟨0, fun z ty => if z = "mars" ∧ ty = "probe" then 5 else 0, []⟩
      7 1 "t1" "mars" "earth" "probe" 3).1 = true ∧
    (engineCreateTransfer ⟨0, fun z ty => if z = "mars" ∧ ty = "probe" then 5 else 0, []⟩
      7 1 "t1" "mars" "earth" "probe" 3).2.probes "mars" "probe" = 5 ∧
    (5 : ℚ) ≠ 5 - 3 := by
  refine ⟨?_, ?_, by norm_num⟩ <;> norm_num [engineCreateTransfer]

/-- C3, amended: v2 one-time transfers validate stock at creation (rejected with no state
change when insufficient); on success the source is *not* debited at creation — the state
only gains the queued transfer; the debit (clamped at zero) and the credit both happen at
arrival, after which the transfer leaves the active list. -/
theorem c3_one_time_transfer_amended (s : EngineStateV2) (transferTime deltaV : ℚ)
    (newId fromZone toZone probeType : String) (probeCount : ℚ) (t : TransferV2) :
    (s.probes fromZone probeType < probeCount →
      engineCreateTransfer s transferTime deltaV newId fromZone toZone probeType probeCount =
        (false, s)) ∧
    (probeCount ≤ s.probes fromZone probeType →
      engineCreateTransfer s transferTime deltaV newId fromZone toZone probeType probeCount =
        (true, { s with active_transfers := s.active_transfers ++
          [mkTransferV2 s.time transferTime deltaV newId fromZone toZone probeType
            probeCount] }) ∧
      (engineCreateTransfer s transferTime deltaV newId fromZone toZone probeType
        probeCount).2.probes = s.probes) ∧
    (s.active_transfers = [t] → t.status = TransferStatus.traveling →
      t.arrival_time ≤ s.time → t.from_zone ≠ t.to_zone → 0 ≤ t.probe_count →
      (processTransfersV2 s).active_transfers = [] ∧
      (processTransfersV2 s).probes t.to_zone t.probe_type =
        s.probes t.to_zone t.probe_type + t.probe_count ∧
      (processTransfersV2 s).probes t.from_zone t.probe_type =
        max 0 (s.probes t.from_zone t.probe_type - t.probe_count)) := by
  refine ⟨?_, ?_, ?_⟩
  · intro h
    unfold engineCreateTransfer
    rw [if_pos h]
  · intro h
    unfold engineCreateTransfer
    rw [if_neg (not_lt.mpr h)]
    exact ⟨rfl, rfl⟩
  · intro hlist htrav harr hne hc
    have hstep : processTransfersV2 s =
        { s with probes := completeTransfer s.probes t, active_transfers := [] } := by
      unfold processTransfersV2
      rw [hlist]
      dsimp only [List.foldl]
      rw [if_neg (by rw [htrav]; intro hcon; exact TransferStatus.noConfusion hcon),
        if_pos ⟨htrav, harr⟩]
    rw [hstep]
    exact ⟨rfl, completeTransfer_dest s.probes t hne,
      completeTransfer_source s.probes t hc hne⟩

/-- C3, witness: the amended transfer theorem at a state with 5 probes at "mars" and one
arrived in-flight transfer of 2 probes from "mars" to "earth". -/
theorem c3_one_time_transfer_amended_witness :
    ((⟨3, fun z ty => if z = "mars" ∧ ty = "probe" then 5 else 0,
        [⟨"t2", "mars", "earth", "probe", 2, 0, 1, 0, TransferStatus.traveling⟩]⟩ :
          EngineStateV2).probes "mars" "probe" < 3 →
      engineCreateTransfer ⟨3, fun z ty => if z = "mars" ∧ ty = "probe" then 5 else 0,
          [⟨"t2", "mars", "earth", "probe", 2, 0, 1, 0, TransferStatus.traveling⟩]⟩
        7 1 "t3" "mars" "earth" "probe" 3 =
        (false, ⟨3, fun z ty => if z = "mars" ∧ ty = "probe" then 5 else 0,
          [⟨"t2", "mars", "earth", "probe", 2, 0, 1, 0, TransferStatus.traveling⟩]⟩)) ∧
    ((3 : ℚ) ≤ (⟨3, fun z ty => if z = "mars" ∧ ty = "probe" then 5 else 0,
        [⟨"t2", "mars", "earth", "probe", 2, 0, 1, 0, TransferStatus.traveling⟩]⟩ :
          EngineStateV2).probes "mars" "probe" →
      engineCreateTransfer ⟨3, fun z ty => if z = "mars" ∧ ty = "probe" then 5 else 0,
          [⟨"t2", "mars", "earth", "probe", 2, 0, 1, 0, TransferStatus.traveling⟩]⟩
        7 1 "t3" "mars" "earth" "probe" 3 =
        (true, { (⟨3, fun z ty => if z = "mars" ∧ ty = "probe" then 5 else 0,
            [⟨"t2", "mars", "earth", "probe", 2, 0, 1, 0, TransferStatus.traveling⟩]⟩ :
              EngineStateV2) with
          active_transfers :=
            [⟨"t2", "mars", "earth", "probe", 2, 0, 1, 0, TransferStatus.traveling⟩] ++
              [mkTransferV2 3 7 1 "t3" "mars" "earth" "probe" 3] }) ∧
      (engineCreateTransfer ⟨3, fun z ty => if z = "mars" ∧ ty = "probe" then 5 else 0,
          [⟨"t2", "mars", "earth", "probe", 2, 0, 1, 0, TransferStatus.traveling⟩]⟩
        7 1 "t3" "mars" "earth" "probe" 3).2.probes =
        fun z ty => if z = "mars" ∧ ty = "probe" then 5 else 0) ∧
    ((⟨3, fun z ty => if z = "mars" ∧ ty = "probe" then 5 else 0,
        [⟨"t2", "mars", "earth", "probe", 2, 0, 1, 0, TransferStatus.traveling⟩]⟩ :
          EngineStateV2).active_transfers =
        [⟨"t2", "mars", "earth", "probe", 2, 0, 1, 0, TransferStatus.traveling⟩] →
      (⟨"t2", "mars", "earth", "probe", 2, 0, 1, 0, TransferStatus.traveling⟩ :
        TransferV2).status = TransferStatus.traveling →
      (⟨"t2", "mars", "earth", "probe", 2, 0, 1, 0, TransferStatus.traveling⟩ :
        TransferV2).arrival_time ≤ 3 →
      (⟨"t2", "mars", "earth", "probe", 2, 0, 1, 0, TransferStatus.traveling⟩ :
        TransferV2).from_zone ≠ "earth" →
      (0 : ℚ) ≤ 2 →
      (processTransfersV2 ⟨3, fun z ty => if z = "mars" ∧ ty = "probe" then 5 else 0,
          [⟨"t2", "mars", "earth", "probe", 2, 0, 1, 0,
            TransferStatus.traveling⟩]⟩).active_transfers = [] ∧
      (processTransfersV2 ⟨3, fun z ty => if z = "mars" ∧ ty = "probe" then 5 else 0,
          [⟨"t2", "mars", "earth", "probe", 2, 0, 1, 0,
            TransferStatus.traveling⟩]⟩).probes "earth" "probe" =
        (if ("earth" : String) = "mars" ∧ ("probe" : String) = "probe" then (5 : ℚ) else 0) + 2 ∧
      (processTransfersV2 ⟨3, fun z ty => if z = "mars" ∧ ty = "probe" then 5 else 0,
          [⟨"t2", "mars", "earth", "probe", 2, 0, 1, 0,
            TransferStatus.traveling⟩]⟩).probes "mars" "probe" =
        max 0 ((if ("mars" : String) = "mars" ∧ ("probe" : String) = "probe" then (5 : ℚ)
          else 0) - 2)) :=
  c3_one_time_transfer_amended
    ⟨3, fun z ty => if z = "mars" ∧ ty = "probe" then 5 else 0,
      [⟨"t2", "mars", "earth", "probe", 2, 0, 1, 0, TransferStatus.traveling⟩]⟩
    7 1 "t3" "mars" "earth" "probe" 3
    ⟨"t2", "mars", "earth", "probe", 2, 0, 1, 0, TransferStatus.traveling⟩

/-- C5: creating any metal transfer from a zone without a mass driver fails the
mass-driver validation with the discriminated failure result, and both the accumulator
map and the game state come back untouched. -/
theorem c5_metal_transfer_validation (accums : AccumMap) (st : StateV1)
    (zoneExists : String → Bool) (deltaV transferTime0 availableCapacity : ℚ)
    (newId fromZoneId toZoneId probeType : String) (resourceCount : ℚ)
    (ttype : String) (ratePercentage0 : ℚ)
    (hf : zoneExists fromZoneId = true) (ht : zoneExists toZoneId = true)
    (hmd : hasMassDriver st fromZoneId = false) :
    createTransferV1 accums st zoneExists deltaV transferTime0 availableCapacity newId
        fromZoneId toZoneId "metal" probeType resourceCount ttype ratePercentage0 =
      (⟨false, none, some "Mass driver required for metal transfers"⟩, accums, st) := by
  unfold createTransferV1
  rw [if_neg (not_not_intro ⟨hf, ht⟩), if_pos ⟨rfl, hmd⟩]

/-- C5, witness: the validation theorem on a zero-structure state ("mars" → "earth",
one-time, 500 kg metal). -/
theorem c5_metal_transfer_validation_witness :
    ((fun _ : String => true) "mars" = true) ∧
    ((fun _ : String => true) "earth" = true) ∧
    hasMassDriver ⟨0, fun _ _ => 0⟩ "mars" = false ∧
    createTransferV1 (fun _ => 0) ⟨0, fun _ _ => 0⟩ (fun _ => true) 1 10 0 "t9"
        "mars" "earth" "metal" "probe" 500 "one-time" 0 =
      (⟨false, none, some "Mass driver required for metal transfers"⟩, fun _ => 0,
        ⟨0, fun _ _ => 0⟩) :=
  ⟨rfl, rfl, by norm_num [hasMassDriver],
    c5_metal_transfer_validation (fun _ => 0) ⟨0, fun _ _ => 0⟩ (fun _ => true) 1 10 0 "t9"
      "mars" "earth" "probe" 500 "one-time" 0 rfl rfl (by norm_num [hasMassDriver])⟩

/-- C2: at the failing input — a continuous probe transfer at 0.5 probes/day, Δt = 1 day,
5 probes at the source — the original engine dispatches a batch on the second tick
(source drops to 4) while the engine restored from `deserialize(serialize(·))` after the
first tick does not (source stays 5): the non-serialized fractional-send accumulator
changes future ticks, so round-tripped runs diverge. -/
theorem c2_roundtrip_divergence :
    (tickContinuous (1 / 2) 10 1 (tickContinuous (1 / 2) 10 1 roundtripInit)).2.sourceProbes
        = 4 ∧
    (tickContinuous (1 / 2) 10 1
        (deserializeSlice (serializeSlice
          (tickContinuous (1 / 2) 10 1 roundtripInit)))).2.sourceProbes = 5 ∧
    (4 : ℚ) ≠ 5 := by
  refine ⟨?_, ?_, by norm_num⟩ <;>
    norm_num [tickContinuous, processContinuousProbeTransfer, processContinuousArrivals,
      sendLoop, roundtripInit, serializeSlice, deserializeSlice]

/-- Every element surviving the positivity filter is positive. -/
theorem filterPositive_mem_pos (l : List ℝ) : ∀ v ∈ filterPositive l, 0 < v := by
  induction l with
  | nil =>
    intro v hv
    exact absurd hv (by simp [filterPositive])
  | cons a rest ih =>
    intro v hv
    unfold filterPositive at hv
    by_cases ha : 0 < a
    · rw [if_pos ha] at hv
      rcases List.mem_cons.mp hv with h | h
      · rwa [h]
      · exact ih v h
    · rw [if_neg ha] at hv
      exact ih v hv

/-- C7: the composite upgrade factor is 1.0 when the category has no coefficient table,
when the value list is empty, and when every value is filtered as non-positive; otherwise
it equals the geometric mean of the filtered values raised to α — the spec's
`(Π coeff_i·skill_i)^(1/n·α)` formula. -/
theorem c7_upgrade_factor_geometric (skillValues : List ℝ) (alpha : ℝ) :
    calculateUpgradeFactorFromCoefficients none alpha = 1 ∧
    calculateTechTreeUpgradeFactor [] alpha = 1 ∧
    (filterPositive skillValues = [] → calculateTechTreeUpgradeFactor skillValues alpha = 1) ∧
    (filterPositive skillValues ≠ [] →
      calculateTechTreeUpgradeFactor skillValues alpha =
        specGeometricMeanPow skillValues alpha) := by
  refine ⟨rfl, ?_, ?_, ?_⟩
  · unfold calculateTechTreeUpgradeFactor
    rw [if_pos rfl]
  · intro h
    unfold calculateTechTreeUpgradeFactor
    by_cases he : skillValues = []
    · rw [if_pos he]
    · rw [if_neg he]
      dsimp only
      rw [if_pos h]
  · intro h
    have hne : skillValues ≠ [] := by
      intro he
      apply h
      rw [he]
      rfl
    unfold calculateTechTreeUpgradeFactor specGeometricMeanPow
    rw [if_neg hne]
    dsimp only
    rw [if_neg h]
    have hpos : ∀ v ∈ filterPositive skillValues, 0 < v := filterPositive_mem_pos skillValues
    have hprodpos : 0 < (filterPositive skillValues).prod := List.prod_pos hpos
    have hfold : List.foldl (· * ·) 1 (filterPositive skillValues) =
        (filterPositive skillValues).prod := List.prod_eq_foldl.symm
    rw [hfold]
    have hGpos : 0 < (filterPositive skillValues).prod ^
        ((1 : ℝ) / ((filterPositive skillValues).length : ℝ)) :=
      Real.rpow_pos_of_pos hprodpos _
    rw [Real.rpow_def_of_pos hGpos, mul_comm]

/-- C7, witness: the geometric-mean theorem at the value list [2] with α = 1/2, whose
filter [2] is nonempty. -/
theorem c7_upgrade_factor_geometric_witness :
    filterPositive [2] ≠ [] ∧
    calculateTechTreeUpgradeFactor [2] (1 / 2) = specGeometricMeanPow [2] (1 / 2) :=
  have hne : filterPositive [2] ≠ [] := by norm_num [filterPositive]
  ⟨hne, (c7_upgrade_factor_geometric [2] (1 / 2)).2.2.2 hne⟩

/-- Concrete tech-tree factor: one weighted value 16 at the default α = 0.75 gives
`16^(3/4) = 8`. -/
theorem calculateTechTreeUpgradeFactor_sixteen :
    calculateTechTreeUpgradeFactor [16] (3 / 4) = 8 := by
  have hfp : filterPositive [16] = [16] := by norm_num [filterPositive]
  unfold calculateTechTreeUpgradeFactor
  rw [if_neg (by simp : ([16] : List ℝ) ≠ [])]
  dsimp only
  rw [hfp, if_neg (by simp : ([16] : List ℝ) ≠ [])]
  norm_num [List.foldl]
  rw [← Real.log_rpow (by norm_num : (0 : ℝ) < 16)]
  rw [Real.exp_log (Real.rpow_pos_of_pos (by norm_num) _)]
  have h16 : (16 : ℝ) = 2 ^ (4 : ℝ) := by
    rw [show (4 : ℝ) = ((4 : ℕ) : ℝ) from by norm_num, Real.rpow_natCast]
    norm_num
  rw [h16, ← Real.rpow_mul (by norm_num : (0 : ℝ) ≤ 2)]
  rw [show (4 : ℝ) * (3 / 4) = ((3 : ℕ) : ℝ) from by norm_num, Real.rpow_natCast]
  norm_num

/-- C8, counterexample: salvage efficiency is not strictly below 1 for all skill inputs —
with a coefficient-weighted value list [16] (e.g. coefficient 16, skill 1) at the default
α = 0.75 the upgrade factor is 8 and `min(1, 0.75·8)` is exactly 1: the efficiency reaches
100%. -/
theorem c8_salvage_counterexample :
    ¬ (calculateSalvageEfficiency (some [16]) (3 / 4) < 1) := by
  have h : calculateSalvageEfficiency (some [16]) (3 / 4) = 1 := by
    show min 1 ((0.75 : ℝ) * calculateTechTreeUpgradeFactor [16] (3 / 4)) = 1
    rw [calculateTechTreeUpgradeFactor_sixteen]
    norm_num
  rw [h]
  exact lt_irrefl 1

/-- C8, amended: salvage efficiency equals `min(1, 0.75·upgradeFactor)` — 0.75 at the
baseline (no coefficient table), never above 1, strictly below 1 while the upgrade factor
is below 4/3, but exactly 1 (reached, not approached) once the factor is at least 4/3. -/
theorem c8_salvage_amended (coeffValues : Option (List ℝ)) (alpha : ℝ) :
    calculateSalvageEfficiency coeffValues alpha ≤ 1 ∧
    calculateSalvageEfficiency none alpha = 3 / 4 ∧
    (4 / 3 ≤ calculateUpgradeFactorFromCoefficients coeffValues alpha →
      calculateSalvageEfficiency coeffValues alpha = 1) ∧
    (calculateUpgradeFactorFromCoefficients coeffValues alpha < 4 / 3 →
      calculateSalvageEfficiency coeffValues alpha < 1) := by
  refine ⟨min_le_left _ _, ?_, ?_, ?_⟩
  · show min 1 ((0.75 : ℝ) * 1) = 3 / 4
    norm_num
  · intro h
    unfold calculateSalvageEfficiency
    exact min_eq_left (by linarith)
  · intro h
    unfold calculateSalvageEfficiency
    calc min 1 ((0.75 : ℝ) * calculateUpgradeFactorFromCoefficients coeffValues alpha) ≤
        (0.75 : ℝ) * calculateUpgradeFactorFromCoefficients coeffValues alpha :=
          min_le_right _ _
      _ < 1 := by linarith

/-- C8, witness: the amended salvage theorem at the value list [16] and α = 0.75, where
the factor 8 exceeds 4/3 and the efficiency is exactly 1. -/
theorem c8_salvage_amended_witness :
    4 / 3 ≤ calculateUpgradeFactorFromCoefficients (some [16]) (3 / 4) ∧
    calculateSalvageEfficiency (some [16]) (3 / 4) = 1 :=
  have h : (4 : ℝ) / 3 ≤ calculateUpgradeFactorFromCoefficients (some [16]) (3 / 4) := by
    show (4 : ℝ) / 3 ≤ calculateTechTreeUpgradeFactor [16] (3 / 4)
    rw [calculateTechTreeUpgradeFactor_sixteen]
    norm_num
  ⟨h, (c8_salvage_amended (some [16]) (3 / 4)).2.2.1 h⟩

end BrachistoProbe
